import Mathlib

/-!
Verification of the jwt-express-middleware library.

The repository ships two near-duplicate implementation variants of the same
three exported functions (jwtMiddleware, extractToken, generateToken); they
are embedded here as namespaces V0 (first variant) and V1 (second variant).
JavaScript string primitives (split, replace, startsWith, substring) are
embedded as executable functions on character lists so that concrete inputs
evaluate inside the kernel.  The external jsonwebtoken primitives sign and
verify are not part of the repository; middleware and token generation are
parameterized over them, and for the round-trip property they are modelled
from the specification.
-/

namespace Jwt

/-- Checks whether the first character list is a prefix of the second and, if
so, returns the remainder after the prefix. -/
def dropPrefixList : List Char → List Char → Option (List Char)
  | [], s => some s
  | _ :: _, [] => none
  | a :: as, b :: bs => if a = b then dropPrefixList as bs else none

/-- Fuel-based worker for the JavaScript split primitive with a string
separator: scans left to right, cutting at each non-overlapping occurrence of
the separator.  The fuel is an upper bound on the scanned length, so the zero
fuel case is unreachable when starting with the length of the input. -/
def jsSplitAux : Nat → List Char → List Char → List Char → List (List Char)
  | _, _, [], acc => [acc.reverse]
  | 0, _, s, acc => [acc.reverse ++ s]
  | n + 1, sep, c :: rest, acc =>
    match dropPrefixList sep (c :: rest) with
    | some remainder => acc.reverse :: jsSplitAux n sep remainder []
    | none => jsSplitAux n sep rest (c :: acc)

/-- JavaScript String.prototype.split with a string separator. -/
def jsSplit (s sep : String) : List String :=
  (jsSplitAux s.data.length sep.data s.data []).map String.mk

/-- Fuel-based worker for the JavaScript replace primitive with a string
pattern and an empty replacement: removes the first occurrence of the pattern
and leaves the input unchanged when the pattern does not occur. -/
def jsReplaceFirstAux : Nat → List Char → List Char → List Char → List Char
  | _, _, [], acc => acc.reverse
  | 0, _, s, acc => acc.reverse ++ s
  | n + 1, pat, c :: rest, acc =>
    match dropPrefixList pat (c :: rest) with
    | some remainder => acc.reverse ++ remainder
    | none => jsReplaceFirstAux n pat rest (c :: acc)

/-- JavaScript s.replace(pat, empty string): first occurrence only. -/
def jsReplaceEmpty (s pat : String) : String :=
  String.mk (jsReplaceFirstAux s.data.length pat.data s.data [])

/-- JavaScript String.prototype.startsWith. -/
def jsStartsWith (s p : String) : Bool :=
  (dropPrefixList p.data s.data).isSome

/-- JavaScript String.prototype.substring from a character index to the end. -/
def jsSubstringFrom (s : String) (n : Nat) : String :=
  String.mk (s.data.drop n)

/-- JavaScript truthiness of a string: the empty string is falsy. -/
def strTruthy (s : String) : Bool :=
  !s.data.isEmpty

/-- JavaScript truthiness of a possibly undefined string: undefined and the
empty string are falsy. -/
def optStrTruthy : Option String → Bool
  | none => false
  | some s => strTruthy s

/-- The decoded token payload: a mapping from string keys to string values
(interface JwtPayload). -/
abbrev JwtPayload := List (String × String)

/-- The request headers, restricted to the only header the library reads.
A value of none models an absent authorization header. -/
structure Headers where
  authorization : Option String := none
deriving DecidableEq

/-- The request object: the authorization header plus the mutable user slot
(interface Request extends ExpressRequest with an optional user field). -/
structure Request where
  headers : Headers
deriving DecidableEq

/-- One observable action of a middleware invocation: emitting a response
with a status code and a message body, writing the decoded payload to the
user slot of the request, or invoking the continuation.  The continuation
carries an optional error argument so that calling it with an error is
expressible; the embedded code only ever produces callNext none. -/
inductive Action where
  | respond (status : Nat) (message : String)
  | setUser (claims : JwtPayload)
  | callNext (err : Option String)
deriving DecidableEq

/-- The outcome of the external verification primitive for a given token,
secret and allowed algorithm list: none models the error branch of the
callback, some gives the decoded payload.  The middleware is parameterized
over this oracle because the primitive is an external collaborator. -/
def Verifier := String → String → List String → Option JwtPayload

/-- The options argument of the external signing primitive:
expiresIn together with the single signing algorithm; the algorithm is
optional because indexing an empty array yields undefined in JavaScript. -/
structure SignOptions where
  expiresIn : String
  algorithm : Option String
deriving DecidableEq

namespace V0

/-- Partial message options of the first variant (interface Message with
optional fields success and error). -/
structure Message where
  success : Option String := none
  error : Option String := none
deriving DecidableEq

/-- Partial middleware options of the first variant
(interface JwtMiddlewareOptions); a field of none models an absent key. -/
structure JwtMiddlewareOptions where
  message : Option Message := none
  expiresIn : Option String := none
  algorithms : Option (List String) := none
deriving DecidableEq

/-- The module level constant DEFAULT_OPTIONS of the first variant. -/
def DEFAULT_OPTIONS : JwtMiddlewareOptions :=
  { message := some { success := some "Token is valid", error := some "Invalid token" }
    expiresIn := some "1h"
    algorithms := some ["HS256"] }

/-- Spread of two partial message objects: a key present in the second
overrides the first (the JavaScript object spread on the nested message). -/
def spreadMessage (a b : Message) : Message :=
  { success := match b.success with | some s => some s | none => a.success
    error := match b.error with | some e => some e | none => a.error }

/-- The success text of the merged configuration: nested spread of the
default message under the caller message (source line 75).  The default
message carries both keys, so the merged value is a total string. -/
def mergedSuccessText (options : JwtMiddlewareOptions) : String :=
  ((spreadMessage ((DEFAULT_OPTIONS.message).getD {}) ((options.message).getD {})).success).getD ""

/-- The error text of the merged configuration: nested spread of the default
message under the caller message (source line 75). -/
def mergedErrorText (options : JwtMiddlewareOptions) : String :=
  ((spreadMessage ((DEFAULT_OPTIONS.message).getD {}) ((options.message).getD {})).error).getD ""

/-- The algorithms field of the top level spread of DEFAULT_OPTIONS under the
caller options: a present key overrides the default. -/
def mergedAlgorithms (options : JwtMiddlewareOptions) : List String :=
  (options.algorithms).getD (DEFAULT_OPTIONS.algorithms.getD [])

/-- The expiresIn field of the top level spread of DEFAULT_OPTIONS under the
caller options. -/
def mergedExpiresIn (options : JwtMiddlewareOptions) : String :=
  (options.expiresIn).getD (DEFAULT_OPTIONS.expiresIn.getD "")

/-- extractToken of the first variant: the authorization header when it
starts with the literal prefix Bearer followed by a space, stripped of the
first seven characters; undefined (none) otherwise, including when the
header is absent. -/
def extractToken (req : Request) : Option String :=
  match req.headers.authorization with
  | some authHeader =>
    if jsStartsWith authHeader "Bearer " then
      some (jsSubstringFrom authHeader 7)
    else
      none
  | none => none

/-- The request handler returned by jwtMiddleware of the first variant.  The
two initial branches together implement the single falsy check on the
extracted token (undefined and the empty string are both falsy).  On a
verification error the configured error text is emitted; on success the
decoded payload is written to the user slot and the continuation is invoked
with no argument. -/
def jwtMiddleware (vf : Verifier) (secretKey : String)
    (options : JwtMiddlewareOptions) (req : Request) : List Action :=
  match extractToken req with
  | none => [Action.respond 401 "Unauthorized: No token provided"]
  | some token =>
    if strTruthy token = false then
      [Action.respond 401 "Unauthorized: No token provided"]
    else
      match vf token secretKey (mergedAlgorithms options) with
      | none => [Action.respond 401 (mergedErrorText options)]
      | some decoded => [Action.setUser decoded, Action.callNext none]

/-- generateToken of the first variant: top level spread of DEFAULT_OPTIONS
under the caller options, then one call of the external signing primitive
with the payload, the secret and the sign options built from the merged
expiresIn and the first merged algorithm.  The result type is abstract
because the token is an opaque artifact of the primitive. -/
def generateToken {Token : Type} (sign : JwtPayload → String → SignOptions → Token)
    (payload : JwtPayload) (secretKey : String)
    (options : JwtMiddlewareOptions) : Token :=
  sign payload secretKey
    { expiresIn := mergedExpiresIn options
      algorithm := (mergedAlgorithms options).head? }

end V0

namespace V1

/-- Partial message options of the second variant (interface Message with
optional fields successMessage and errorMessage). -/
structure Message where
  successMessage : Option String := none
  errorMessage : Option String := none
deriving DecidableEq

/-- Partial middleware options of the second variant. -/
structure JwtMiddlewareOptions where
  message : Option Message := none
  expiresIn : Option String := none
  algorithms : Option (List String) := none
deriving DecidableEq

/-- The module level constant defaultOptions of the second variant. -/
def defaultOptions : JwtMiddlewareOptions :=
  { message := some { successMessage := some "Token is valid"
                      errorMessage := some "Invalid token" }
    expiresIn := some "1h"
    algorithms := some ["HS256"] }

/-- Spread of two partial message objects of the second variant. -/
def spreadMessage (a b : Message) : Message :=
  { successMessage := match b.successMessage with | some s => some s | none => a.successMessage
    errorMessage := match b.errorMessage with | some e => some e | none => a.errorMessage }

/-- The success message of the merged configuration of the second variant. -/
def mergedSuccessMessage (options : JwtMiddlewareOptions) : String :=
  ((spreadMessage ((defaultOptions.message).getD {}) ((options.message).getD {})).successMessage).getD ""

/-- The error message of the merged configuration of the second variant. -/
def mergedErrorMessage (options : JwtMiddlewareOptions) : String :=
  ((spreadMessage ((defaultOptions.message).getD {}) ((options.message).getD {})).errorMessage).getD ""

/-- The algorithms field of the top level spread of defaultOptions under the
caller options. -/
def mergedAlgorithms (options : JwtMiddlewareOptions) : List String :=
  (options.algorithms).getD (defaultOptions.algorithms.getD [])

/-- The expiresIn field of the top level spread of defaultOptions under the
caller options. -/
def mergedExpiresIn (options : JwtMiddlewareOptions) : String :=
  (options.expiresIn).getD (defaultOptions.expiresIn.getD "")

/-- The request handler returned by jwtMiddleware of the second variant: a
falsy authorization header answers a fixed Unauthorized body; otherwise the
first occurrence of the Bearer scheme text is removed by the replace
primitive (the source binds this stripped token once; it is inlined here),
an empty remainder answers the configured error message, and otherwise the
verification oracle decides between the configured error message and a bare
continuation call.  The decoded payload is discarded. -/
def jwtMiddleware (vf : Verifier) (secretKey : String)
    (options : JwtMiddlewareOptions) (req : Request) : List Action :=
  match req.headers.authorization with
  | none => [Action.respond 401 "Unauthorized"]
  | some authorization =>
    if strTruthy authorization = false then
      [Action.respond 401 "Unauthorized"]
    else
      if strTruthy (jsReplaceEmpty authorization "Bearer ") = false then
        [Action.respond 401 (mergedErrorMessage options)]
      else
        match vf (jsReplaceEmpty authorization "Bearer ") secretKey (mergedAlgorithms options) with
        | none => [Action.respond 401 (mergedErrorMessage options)]
        | some _decoded => [Action.callNext none]

/-- extractToken of the second variant: the element at index one of the
split of the authorization header on a single space, with undefined and a
missing element both collapsed to the empty string. -/
def extractToken (req : Request) : String :=
  match req.headers.authorization with
  | some h => (jsSplit h " ").getD 1 ""
  | none => ""

/-- generateToken of the second variant: textually the same computation as
in the first variant. -/
def generateToken {Token : Type} (sign : JwtPayload → String → SignOptions → Token)
    (payload : JwtPayload) (secretKey : String)
    (options : JwtMiddlewareOptions) : Token :=
  sign payload secretKey
    { expiresIn := mergedExpiresIn options
      algorithm := (mergedAlgorithms options).head? }

end V1

/-- Modelled from the spec: the token artifact of the external signing
primitive (the jsonwebtoken library, an external collaborator that is not
part of the repository sources).  A token records the signed payload, the
registered claims the primitive injects at signing time, the secret and the
algorithm option used for signing. -/
structure ModelToken where
  payload : JwtPayload
  registered : JwtPayload
  secret : String
  algorithm : Option String
deriving DecidableEq

/-- Modelled from the spec: the standard registered claims the signing
primitive injects, issue time and expiry. -/
def registeredClaims (now : Nat) (expiresIn : String) : JwtPayload :=
  [("iat", toString now), ("exp", expiresIn)]

/-- Modelled from the spec: the external signing primitive, of shape
sign(payload, secret, options) producing a token. -/
def modelSign (now : Nat) (payload : JwtPayload) (secret : String)
    (opts : SignOptions) : ModelToken :=
  { payload := payload
    registered := registeredClaims now opts.expiresIn
    secret := secret
    algorithm := opts.algorithm }

/-- Modelled from the spec: the external verification primitive, of shape
verify(token, secret, options) yielding the payload or an error.  It
succeeds exactly when the secret matches and the token algorithm is among
the allowed algorithms, and then yields the signed payload together with
the injected registered claims. -/
def modelVerify (tok : ModelToken) (secret : String)
    (algorithms : List String) : Option JwtPayload :=
  match tok.algorithm with
  | none => none
  | some a =>
    if tok.secret = secret ∧ a ∈ algorithms then
      some (tok.payload ++ tok.registered)
    else
      none

/-- Erases the configured success text of a partial options value of the
first variant, leaving every other field unchanged.  Two options values
agree after erasure exactly when they differ at most in the configured
success text. -/
def eraseSuccessV0 (o : V0.JwtMiddlewareOptions) : V0.JwtMiddlewareOptions :=
  { o with message := o.message.map (fun m => { m with success := none }) }

/-- Erases the configured success message of a partial options value of the
second variant. -/
def eraseSuccessV1 (o : V1.JwtMiddlewareOptions) : V1.JwtMiddlewareOptions :=
  { o with message := o.message.map (fun m => { m with successMessage := none }) }

/-- A concrete verification oracle used in witnesses: accepts every token
with a fixed decoded payload. -/
def vfAccept : Verifier := fun _ _ _ => some [("userId", "42")]

/-- A concrete verification oracle used in witnesses: rejects every token. -/
def vfReject : Verifier := fun _ _ _ => none

/-- A concrete signing oracle used in witnesses: records its arguments. -/
def pairSign : JwtPayload → String → SignOptions → JwtPayload × String × SignOptions :=
  fun p s o => (p, s, o)

/-- An action is a decision when it either emits a response or invokes the
continuation. -/
def isDecision : Action → Bool
  | Action.respond _ _ => true
  | Action.setUser _ => false
  | Action.callNext _ => true

/-- Helper: the algorithms field is untouched by success text erasure. -/
theorem eraseSuccessV0_algorithms_eq (o o2 : V0.JwtMiddlewareOptions)
    (h : eraseSuccessV0 o = eraseSuccessV0 o2) : o.algorithms = o2.algorithms := by
  have h2 := congrArg V0.JwtMiddlewareOptions.algorithms h
  exact h2

/-- Helper: the expiresIn field is untouched by success text erasure. -/
theorem eraseSuccessV0_expiresIn_eq (o o2 : V0.JwtMiddlewareOptions)
    (h : eraseSuccessV0 o = eraseSuccessV0 o2) : o.expiresIn = o2.expiresIn := by
  have h2 := congrArg V0.JwtMiddlewareOptions.expiresIn h
  exact h2

/-- Helper: the merged error text is untouched by success text erasure. -/
theorem eraseSuccessV0_errorText_eq (o o2 : V0.JwtMiddlewareOptions)
    (h : eraseSuccessV0 o = eraseSuccessV0 o2) :
    V0.mergedErrorText o = V0.mergedErrorText o2 := by
  have hm : o.message.map (fun m => { m with success := none })
      = o2.message.map (fun m => { m with success := none }) := by
    have h2 := congrArg V0.JwtMiddlewareOptions.message h
    exact h2
  cases ho : o.message with
  | none =>
    cases ho2 : o2.message with
    | none => simp [V0.mergedErrorText, ho, ho2]
    | some m2 => rw [ho, ho2] at hm; simp at hm
  | some m1 =>
    cases ho2 : o2.message with
    | none => rw [ho, ho2] at hm; simp at hm
    | some m2 =>
      rw [ho, ho2] at hm
      simp only [Option.map_some'] at hm
      rw [Option.some.injEq] at hm
      have herr : m1.error = m2.error := by
        have h3 := congrArg V0.Message.error hm
        exact h3
      simp [V0.mergedErrorText, V0.spreadMessage, ho, ho2, herr]

/-- Helper: the algorithms field is untouched by success message erasure. -/
theorem eraseSuccessV1_algorithms_eq (o o2 : V1.JwtMiddlewareOptions)
    (h : eraseSuccessV1 o = eraseSuccessV1 o2) : o.algorithms = o2.algorithms := by
  have h2 := congrArg V1.JwtMiddlewareOptions.algorithms h
  exact h2

/-- Helper: the expiresIn field is untouched by success message erasure. -/
theorem eraseSuccessV1_expiresIn_eq (o o2 : V1.JwtMiddlewareOptions)
    (h : eraseSuccessV1 o = eraseSuccessV1 o2) : o.expiresIn = o2.expiresIn := by
  have h2 := congrArg V1.JwtMiddlewareOptions.expiresIn h
  exact h2

/-- Helper: the merged error message is untouched by success message
erasure. -/
theorem eraseSuccessV1_errorMessage_eq (o o2 : V1.JwtMiddlewareOptions)
    (h : eraseSuccessV1 o = eraseSuccessV1 o2) :
    V1.mergedErrorMessage o = V1.mergedErrorMessage o2 := by
  have hm : o.message.map (fun m => { m with successMessage := none })
      = o2.message.map (fun m => { m with successMessage := none }) := by
    have h2 := congrArg V1.JwtMiddlewareOptions.message h
    exact h2
  cases ho : o.message with
  | none =>
    cases ho2 : o2.message with
    | none => simp [V1.mergedErrorMessage, ho, ho2]
    | some m2 => rw [ho, ho2] at hm; simp at hm
  | some m1 =>
    cases ho2 : o2.message with
    | none => rw [ho, ho2] at hm; simp at hm
    | some m2 =>
      rw [ho, ho2] at hm
      simp only [Option.map_some'] at hm
      rw [Option.some.injEq] at hm
      have herr : m1.errorMessage = m2.errorMessage := by
        have h3 := congrArg V1.Message.errorMessage hm
        exact h3
      simp [V1.mergedErrorMessage, V1.spreadMessage, ho, ho2, herr]

/-- C1: every invocation of either middleware handler performs exactly one
decision action, that is, exactly one element of its action trace is a
response emission or a continuation call, so a response is emitted or the
continuation is invoked, never both and never neither. -/
theorem middleware_exactly_one_decision (vf : Verifier) (secretKey : String)
    (o0 : V0.JwtMiddlewareOptions) (o1 : V1.JwtMiddlewareOptions) (req : Request) :
    (V0.jwtMiddleware vf secretKey o0 req).countP isDecision = 1
    ∧ (V1.jwtMiddleware vf secretKey o1 req).countP isDecision = 1 := by
  constructor
  · unfold V0.jwtMiddleware
    repeat' split
    all_goals rfl
  · unfold V1.jwtMiddleware
    repeat' split
    all_goals rfl

/-- C3: a request without an authorization header makes both middleware
variants emit a 401 response (with their respective fixed bodies) and never
invoke the continuation. -/
theorem missing_header_401 (vf : Verifier) (secretKey : String)
    (o0 : V0.JwtMiddlewareOptions) (o1 : V1.JwtMiddlewareOptions) (req : Request)
    (h : req.headers.authorization = none) :
    V0.jwtMiddleware vf secretKey o0 req
        = [Action.respond 401 "Unauthorized: No token provided"]
    ∧ V1.jwtMiddleware vf secretKey o1 req = [Action.respond 401 "Unauthorized"]
    ∧ ∀ e : Option String,
        Action.callNext e ∉ V0.jwtMiddleware vf secretKey o0 req
        ∧ Action.callNext e ∉ V1.jwtMiddleware vf secretKey o1 req := by
  rcases req with ⟨⟨auth⟩⟩
  simp only at h
  subst h
  refine ⟨rfl, rfl, ?_⟩
  intro e
  constructor
  · intro hmem
    simp [V0.jwtMiddleware, V0.extractToken] at hmem
  · intro hmem
    simp [V1.jwtMiddleware] at hmem

/-- C3 witness at a concrete request with no authorization header. -/
theorem missing_header_401_witness :
    V0.jwtMiddleware vfAccept "secret" {} { headers := {} }
        = [Action.respond 401 "Unauthorized: No token provided"]
    ∧ V1.jwtMiddleware vfAccept "secret" V1.defaultOptions { headers := {} }
        = [Action.respond 401 "Unauthorized"] := by
  have h := missing_header_401 vfAccept "secret" {} V1.defaultOptions { headers := {} } rfl
  exact ⟨h.1, h.2.1⟩

/-- C2 counterexample: the second variant invokes the continuation on a
successfully verified token without attaching the decoded payload to the
user slot of the request, so the claim fails on that variant. -/
theorem success_no_attach_in_variant_one :
    V1.jwtMiddleware vfAccept "secret" V1.defaultOptions
        { headers := { authorization := some "Bearer abc" } } = [Action.callNext none]
    ∧ Action.setUser [("userId", "42")] ∉
        V1.jwtMiddleware vfAccept "secret" V1.defaultOptions
          { headers := { authorization := some "Bearer abc" } } := by
  constructor
  · rfl
  · decide

/-- C2 amended: when verification succeeds, the first variant attaches the
decoded payload to the user slot and then invokes the continuation with no
argument, while the second variant invokes the continuation with no
argument without attaching anything; neither variant ever invokes the
continuation with an error argument. -/
theorem success_path_behavior :
    (∀ (vf : Verifier) (secretKey : String) (o : V0.JwtMiddlewareOptions)
        (req : Request) (token : String) (decoded : JwtPayload),
       V0.extractToken req = some token → strTruthy token = true →
       vf token secretKey (V0.mergedAlgorithms o) = some decoded →
       V0.jwtMiddleware vf secretKey o req
         = [Action.setUser decoded, Action.callNext none])
    ∧ (∀ (vf : Verifier) (secretKey : String) (o : V1.JwtMiddlewareOptions)
        (req : Request) (auth : String) (decoded : JwtPayload),
       req.headers.authorization = some auth → strTruthy auth = true →
       strTruthy (jsReplaceEmpty auth "Bearer ") = true →
       vf (jsReplaceEmpty auth "Bearer ") secretKey (V1.mergedAlgorithms o) = some decoded →
       V1.jwtMiddleware vf secretKey o req = [Action.callNext none])
    ∧ (∀ (vf : Verifier) (secretKey : String) (o0 : V0.JwtMiddlewareOptions)
        (o1 : V1.JwtMiddlewareOptions) (req : Request) (e : String),
       Action.callNext (some e) ∉ V0.jwtMiddleware vf secretKey o0 req
       ∧ Action.callNext (some e) ∉ V1.jwtMiddleware vf secretKey o1 req) := by
  refine ⟨?_, ?_, ?_⟩
  · intro vf secretKey o req token decoded h1 h2 h3
    unfold V0.jwtMiddleware
    rw [h1]
    simp [h2, h3]
  · intro vf secretKey o req auth decoded h1 h2 h3 h4
    unfold V1.jwtMiddleware
    rw [h1]
    simp [h2, h3, h4]
  · intro vf secretKey o0 o1 req e
    constructor
    · intro hmem
      unfold V0.jwtMiddleware at hmem
      repeat' split at hmem
      all_goals simp at hmem
    · intro hmem
      unfold V1.jwtMiddleware at hmem
      repeat' split at hmem
      all_goals simp at hmem

/-- C2 amended witness at concrete successful requests. -/
theorem success_path_behavior_witness :
    V0.jwtMiddleware vfAccept "secret" {}
        { headers := { authorization := some "Bearer abc" } }
        = [Action.setUser [("userId", "42")], Action.callNext none]
    ∧ V1.jwtMiddleware vfAccept "secret" V1.defaultOptions
        { headers := { authorization := some "Bearer abc" } } = [Action.callNext none]
    ∧ Action.callNext (some "boom") ∉
        V0.jwtMiddleware vfAccept "secret" {}
          { headers := { authorization := some "Bearer abc" } } := by
  refine ⟨?_, ?_, ?_⟩
  · exact success_path_behavior.1 vfAccept "secret" {} _ "abc" [("userId", "42")]
      (by decide) (by decide) (by decide)
  · exact success_path_behavior.2.1 vfAccept "secret" V1.defaultOptions _
      "Bearer abc" [("userId", "42")] rfl (by decide) (by decide) (by decide)
  · exact (success_path_behavior.2.2 vfAccept "secret" {} V1.defaultOptions
      { headers := { authorization := some "Bearer abc" } } "boom").1

/-- C4 counterexample: on the header Basic abc123, extractToken of the
second variant yields the nonempty string abc123 rather than an absence
marker, the second variant middleware hands that string to the verification
oracle, answers with the configured error message when the oracle rejects,
and even invokes the continuation when the oracle accepts; none of this is
the missing-token behavior. -/
theorem non_bearer_header_counterexample :
    V1.extractToken { headers := { authorization := some "Basic abc123" } } = "abc123"
    ∧ V1.jwtMiddleware vfReject "secret" V1.defaultOptions
        { headers := { authorization := some "Basic abc123" } }
        = [Action.respond 401 "Invalid token"]
    ∧ V1.jwtMiddleware vfReject "secret" V1.defaultOptions
        { headers := { authorization := some "Basic abc123" } }
        ≠ V1.jwtMiddleware vfReject "secret" V1.defaultOptions { headers := {} }
    ∧ V1.jwtMiddleware vfAccept "secret" V1.defaultOptions
        { headers := { authorization := some "Basic abc123" } }
        = [Action.callNext none] := by
  refine ⟨rfl, rfl, ?_, rfl⟩
  decide

/-- C4 amended: in the first variant a header without the Bearer prefix
yields absence and the fixed missing-token response; in the second variant
extraction returns the text after the first space (empty when there is
none), and the middleware passes the header stripped of the first Bearer
prefix occurrence to verification, emitting the configured error message
when verification fails. -/
theorem non_bearer_header_behavior :
    (∀ (vf : Verifier) (secretKey : String) (o : V0.JwtMiddlewareOptions) (h : String),
       jsStartsWith h "Bearer " = false →
       V0.extractToken { headers := { authorization := some h } } = none
       ∧ V0.jwtMiddleware vf secretKey o { headers := { authorization := some h } }
           = [Action.respond 401 "Unauthorized: No token provided"])
    ∧ (∀ h : String,
       V1.extractToken { headers := { authorization := some h } }
         = (jsSplit h " ").getD 1 "")
    ∧ (∀ (vf : Verifier) (secretKey : String) (o : V1.JwtMiddlewareOptions) (h : String),
       strTruthy h = true → strTruthy (jsReplaceEmpty h "Bearer ") = true →
       vf (jsReplaceEmpty h "Bearer ") secretKey (V1.mergedAlgorithms o) = none →
       V1.jwtMiddleware vf secretKey o { headers := { authorization := some h } }
           = [Action.respond 401 (V1.mergedErrorMessage o)]) := by
  refine ⟨?_, ?_, ?_⟩
  · intro vf secretKey o h hs
    constructor
    · simp [V0.extractToken, hs]
    · simp [V0.jwtMiddleware, V0.extractToken, hs]
  · intro h
    rfl
  · intro vf secretKey o h h1 h2 h3
    simp [V1.jwtMiddleware, h1, h2, h3]

/-- C4 amended witness at the header Basic abc123. -/
theorem non_bearer_header_behavior_witness :
    (V0.extractToken { headers := { authorization := some "Basic abc123" } } = none
     ∧ V0.jwtMiddleware vfReject "secret" {}
         { headers := { authorization := some "Basic abc123" } }
         = [Action.respond 401 "Unauthorized: No token provided"])
    ∧ V1.extractToken { headers := { authorization := some "Basic abc123" } }
        = (jsSplit "Basic abc123" " ").getD 1 ""
    ∧ V1.jwtMiddleware vfReject "secret" V1.defaultOptions
        { headers := { authorization := some "Basic abc123" } }
        = [Action.respond 401 (V1.mergedErrorMessage V1.defaultOptions)] := by
  refine ⟨?_, ?_, ?_⟩
  · exact non_bearer_header_behavior.1 vfReject "secret" {} "Basic abc123" (by decide)
  · exact non_bearer_header_behavior.2.1 "Basic abc123"
  · exact non_bearer_header_behavior.2.2 vfReject "secret" V1.defaultOptions
      "Basic abc123" (by decide) (by decide) (by decide)

/-- C5 counterexample: on a header that is exactly Bearer followed by a
space, the second variant answers with the caller configured error text,
that is, the invalid-token message rather than a fixed missing-token body. -/
theorem bearer_empty_counterexample :
    V1.jwtMiddleware vfAccept "secret"
        { message := some { errorMessage := some "CUSTOM" } }
        { headers := { authorization := some "Bearer " } }
      = [Action.respond 401 "CUSTOM"] := by
  rfl

/-- C5 amended: on a header that is exactly Bearer followed by a space,
neither variant calls the verification oracle (the result does not depend
on it); the first variant emits the fixed missing-token response, while the
second variant emits 401 with the configured error message. -/
theorem bearer_empty_behavior (vf : Verifier) (secretKey : String)
    (o0 : V0.JwtMiddlewareOptions) (o1 : V1.JwtMiddlewareOptions) :
    V0.jwtMiddleware vf secretKey o0 { headers := { authorization := some "Bearer " } }
        = [Action.respond 401 "Unauthorized: No token provided"]
    ∧ V1.jwtMiddleware vf secretKey o1 { headers := { authorization := some "Bearer " } }
        = [Action.respond 401 (V1.mergedErrorMessage o1)] := by
  exact ⟨rfl, rfl⟩

/-- C6: verifying a token produced by generateToken with the same secret
and an algorithm list containing the merged signing algorithm succeeds and
yields the original claims extended by the injected registered claims;
removing the registered claim keys recovers the original claims exactly.
The sign and verify primitives are modelled from the spec. -/
theorem generate_verify_roundtrip (now : Nat) (claims : JwtPayload)
    (secretKey : String) (options : V0.JwtMiddlewareOptions)
    (algs : List String) (a : String)
    (hhead : (V0.mergedAlgorithms options).head? = some a) (hmem : a ∈ algs)
    (hclean : ∀ p ∈ claims, p.1 ≠ "iat" ∧ p.1 ≠ "exp") :
    modelVerify (V0.generateToken (modelSign now) claims secretKey options)
        secretKey algs
      = some (claims ++ registeredClaims now (V0.mergedExpiresIn options))
    ∧ (claims ++ registeredClaims now (V0.mergedExpiresIn options)).filter
        (fun p => p.1 != "iat" && p.1 != "exp") = claims := by
  constructor
  · unfold modelVerify V0.generateToken modelSign
    simp [hhead, hmem]
  · rw [List.filter_append]
    have h1 : claims.filter (fun p => p.1 != "iat" && p.1 != "exp") = claims := by
      rw [List.filter_eq_self]
      intro p hp
      have hc := hclean p hp
      simp [hc.1, hc.2]
    have h2 : (registeredClaims now (V0.mergedExpiresIn options)).filter
        (fun p => p.1 != "iat" && p.1 != "exp") = [] := rfl
    rw [h1, h2, List.append_nil]

/-- C6 witness at concrete claims, secret and the default configuration. -/
theorem generate_verify_roundtrip_witness :
    modelVerify (V0.generateToken (modelSign 0) [("userId", "42")] "s3cret" {})
        "s3cret" ["HS256"]
      = some ([("userId", "42")] ++ registeredClaims 0 (V0.mergedExpiresIn {}))
    ∧ ([("userId", "42")] ++ registeredClaims 0 (V0.mergedExpiresIn {})).filter
        (fun p => p.1 != "iat" && p.1 != "exp") = [("userId", "42")] :=
  generate_verify_roundtrip 0 [("userId", "42")] "s3cret" {} ["HS256"] "HS256"
    (by decide) (by decide) (by decide)

/-- C7: the merged configuration overrides defaults field by field, and the
nested message pair merges independently, so supplying only the error text
preserves the default success text and conversely, in both variants. -/
theorem merge_shallow_nested_message (e s x : String) (algs : List String) :
    V0.mergedErrorText { message := some { error := some e } } = e
    ∧ V0.mergedSuccessText { message := some { error := some e } } = "Token is valid"
    ∧ V0.mergedSuccessText { message := some { success := some s } } = s
    ∧ V0.mergedErrorText { message := some { success := some s } } = "Invalid token"
    ∧ V0.mergedExpiresIn { message := some { error := some e } } = "1h"
    ∧ V0.mergedAlgorithms { message := some { error := some e } } = ["HS256"]
    ∧ V0.mergedExpiresIn { expiresIn := some x } = x
    ∧ V0.mergedAlgorithms { algorithms := some algs } = algs
    ∧ V1.mergedErrorMessage { message := some { errorMessage := some e } } = e
    ∧ V1.mergedSuccessMessage { message := some { errorMessage := some e } }
        = "Token is valid"
    ∧ V1.mergedSuccessMessage { message := some { successMessage := some s } } = s
    ∧ V1.mergedErrorMessage { message := some { successMessage := some s } }
        = "Invalid token"
    ∧ V1.mergedExpiresIn { expiresIn := some x } = x
    ∧ V1.mergedAlgorithms { algorithms := some algs } = algs :=
  ⟨rfl, rfl, rfl, rfl, rfl, rfl, rfl, rfl, rfl, rfl, rfl, rfl, rfl, rfl⟩

/-- C8: both generateToken variants call the signing primitive exactly once
with the payload, the secret and the sign options built from the merged
expiresIn and the first merged algorithm, and return its result; whenever
the merged algorithm list has a first element, that element alone is the
signing algorithm, regardless of the rest of the list. -/
theorem generateToken_calls_sign {Token : Type}
    (sign : JwtPayload → String → SignOptions → Token)
    (payload : JwtPayload) (secretKey : String)
    (o0 : V0.JwtMiddlewareOptions) (o1 : V1.JwtMiddlewareOptions) :
    V0.generateToken sign payload secretKey o0
        = sign payload secretKey
            { expiresIn := V0.mergedExpiresIn o0
              algorithm := (V0.mergedAlgorithms o0).head? }
    ∧ V1.generateToken sign payload secretKey o1
        = sign payload secretKey
            { expiresIn := V1.mergedExpiresIn o1
              algorithm := (V1.mergedAlgorithms o1).head? }
    ∧ (∀ (a : String) (rest : List String), V0.mergedAlgorithms o0 = a :: rest →
        V0.generateToken sign payload secretKey o0
          = sign payload secretKey
              { expiresIn := V0.mergedExpiresIn o0, algorithm := some a })
    ∧ (∀ (a : String) (rest : List String), V1.mergedAlgorithms o1 = a :: rest →
        V1.generateToken sign payload secretKey o1
          = sign payload secretKey
              { expiresIn := V1.mergedExpiresIn o1, algorithm := some a }) := by
  refine ⟨rfl, rfl, ?_, ?_⟩
  · intro a rest h
    simp [V0.generateToken, h]
  · intro a rest h
    simp [V1.generateToken, h]

/-- C8 witness: with a two-element algorithm list only the first element
reaches the signing primitive. -/
theorem generateToken_calls_sign_witness :
    V0.generateToken pairSign [("userId", "42")] "s3cret"
        { algorithms := some ["HS384", "RS256"] }
      = pairSign [("userId", "42")] "s3cret"
          { expiresIn := V0.mergedExpiresIn { algorithms := some ["HS384", "RS256"] }
            algorithm := some "HS384" } :=
  (generateToken_calls_sign pairSign [("userId", "42")] "s3cret"
      { algorithms := some ["HS384", "RS256"] } V1.defaultOptions).2.2.1
    "HS384" ["RS256"] rfl

/-- C9 counterexample: a caller supplied empty algorithm list survives the
merge, so the configuration used by generateToken has an empty allowed
algorithm list and the signing algorithm handed to the primitive is
undefined. -/
theorem empty_algorithms_counterexample :
    V0.mergedAlgorithms { algorithms := some [] } = []
    ∧ (V0.mergedAlgorithms { algorithms := some [] }).head? = none
    ∧ V1.mergedAlgorithms { algorithms := some [] } = []
    ∧ V0.generateToken pairSign [] "secret" { algorithms := some [] }
        = pairSign [] "secret" { expiresIn := "1h", algorithm := none } :=
  ⟨rfl, rfl, rfl, rfl⟩

/-- C9 amended: the merged algorithm list is nonempty whenever the caller
omits the algorithms field or supplies a nonempty list; only an explicitly
supplied empty list produces an empty merged list. -/
theorem merged_algorithms_nonempty (o0 : V0.JwtMiddlewareOptions)
    (o1 : V1.JwtMiddlewareOptions)
    (h0 : o0.algorithms = none ∨ ∃ l, o0.algorithms = some l ∧ l ≠ [])
    (h1 : o1.algorithms = none ∨ ∃ l, o1.algorithms = some l ∧ l ≠ []) :
    V0.mergedAlgorithms o0 ≠ [] ∧ V1.mergedAlgorithms o1 ≠ [] := by
  constructor
  · rcases h0 with h | ⟨l, hl, hne⟩
    · simp [V0.mergedAlgorithms, h, V0.DEFAULT_OPTIONS]
    · simp [V0.mergedAlgorithms, hl, hne]
  · rcases h1 with h | ⟨l, hl, hne⟩
    · simp [V1.mergedAlgorithms, h, V1.defaultOptions]
    · simp [V1.mergedAlgorithms, hl, hne]

/-- C9 amended witness at the empty caller configuration. -/
theorem merged_algorithms_nonempty_witness :
    V0.mergedAlgorithms {} ≠ [] ∧ V1.mergedAlgorithms {} ≠ [] :=
  merged_algorithms_nonempty {} {} (Or.inl rfl) (Or.inl rfl)

/-- C10: two configurations that agree after erasing the configured success
text produce identical middleware traces and identical generated tokens in
both variants: the success text never influences any output. -/
theorem success_text_never_observable {Token : Type}
    (sign : JwtPayload → String → SignOptions → Token) (vf : Verifier)
    (secretKey : String) (payload : JwtPayload) (req : Request)
    (o0 o0x : V0.JwtMiddlewareOptions) (o1 o1x : V1.JwtMiddlewareOptions)
    (h0 : eraseSuccessV0 o0 = eraseSuccessV0 o0x)
    (h1 : eraseSuccessV1 o1 = eraseSuccessV1 o1x) :
    V0.jwtMiddleware vf secretKey o0 req = V0.jwtMiddleware vf secretKey o0x req
    ∧ V1.jwtMiddleware vf secretKey o1 req = V1.jwtMiddleware vf secretKey o1x req
    ∧ V0.generateToken sign payload secretKey o0
        = V0.generateToken sign payload secretKey o0x
    ∧ V1.generateToken sign payload secretKey o1
        = V1.generateToken sign payload secretKey o1x := by
  have ha0 : V0.mergedAlgorithms o0 = V0.mergedAlgorithms o0x := by
    unfold V0.mergedAlgorithms
    rw [eraseSuccessV0_algorithms_eq o0 o0x h0]
  have hx0 : V0.mergedExpiresIn o0 = V0.mergedExpiresIn o0x := by
    unfold V0.mergedExpiresIn
    rw [eraseSuccessV0_expiresIn_eq o0 o0x h0]
  have he0 : V0.mergedErrorText o0 = V0.mergedErrorText o0x :=
    eraseSuccessV0_errorText_eq o0 o0x h0
  have ha1 : V1.mergedAlgorithms o1 = V1.mergedAlgorithms o1x := by
    unfold V1.mergedAlgorithms
    rw [eraseSuccessV1_algorithms_eq o1 o1x h1]
  have hx1 : V1.mergedExpiresIn o1 = V1.mergedExpiresIn o1x := by
    unfold V1.mergedExpiresIn
    rw [eraseSuccessV1_expiresIn_eq o1 o1x h1]
  have he1 : V1.mergedErrorMessage o1 = V1.mergedErrorMessage o1x :=
    eraseSuccessV1_errorMessage_eq o1 o1x h1
  refine ⟨?_, ?_, ?_, ?_⟩
  · unfold V0.jwtMiddleware
    rw [he0, ha0]
  · unfold V1.jwtMiddleware
    rw [he1, ha1]
  · unfold V0.generateToken
    rw [hx0, ha0]
  · unfold V1.generateToken
    rw [hx1, ha1]

/-- C10 witness: two configurations differing only in the success text. -/
theorem success_text_never_observable_witness :
    V0.jwtMiddleware vfAccept "secret" { message := some { success := some "A" } }
        { headers := { authorization := some "Bearer abc" } }
      = V0.jwtMiddleware vfAccept "secret" { message := some { success := some "B" } }
          { headers := { authorization := some "Bearer abc" } }
    ∧ V1.generateToken pairSign [] "secret"
        { message := some { successMessage := some "A" } }
      = V1.generateToken pairSign [] "secret"
          { message := some { successMessage := some "B" } } := by
  have h := success_text_never_observable pairSign vfAccept "secret" []
    { headers := { authorization := some "Bearer abc" } }
    { message := some { success := some "A" } }
    { message := some { success := some "B" } }
    { message := some { successMessage := some "A" } }
    { message := some { successMessage := some "B" } } rfl rfl
  exact ⟨h.1, h.2.2.2⟩

end Jwt
